import Mathlib

/-!
# Verification of the clinical-summary pipeline

A shallow embedding of the two core components of the repository
`deva016/data-science-assignment`:

* `src/data_layer.py` — patient record aggregation (`get_patient_data`)
  and deterministic narrative formatting (`format_for_llm`);
* `src/llm_service.py` — the dual-provider summary orchestration
  (`generate_summary` with `_call_gemini` / `_call_openai`).

Records (Python dicts / pandas rows) become Lean structures with the same
field names; optional columns are `Option String` and `.get(k, default)`
becomes `Option.getD`.  Dates travel as ISO `YYYY-MM-DD` strings; pandas
`to_datetime` ordering coincides with lexicographic order on such strings,
which `lexLe` implements.  `str(pandas.Timestamp)` rendering of a converted
date column is `tsStr` (it appends the midnight time component).
-/

namespace ClinicalPipeline

/-- Lexicographic order (as `Bool`) on character lists, comparing code
points; on ISO `YYYY-MM-DD` date strings this coincides with the
chronological order that `pandas.to_datetime` sorting uses. -/
def lexLe : List Char → List Char → Bool
  | [], _ => true
  | _ :: _, [] => false
  | a :: as, b :: bs =>
    if a.toNat < b.toNat then true
    else if b.toNat < a.toNat then false
    else lexLe as bs

/-- Date comparison on ISO date strings (see `lexLe`). -/
def dateLe (a b : String) : Bool := lexLe a.data b.data

/-- Insert `a` into `l`, placing it before the first element `b` with
`le a b`.  Auxiliary of the stable sort `isort`. -/
def insertLe (le : α → α → Bool) (a : α) : List α → List α
  | [] => [a]
  | b :: bs => if le a b then a :: b :: bs else b :: insertLe le a bs

/-- Stable insertion sort by the boolean relation `le`; models
`pandas.DataFrame.sort_values` (equal keys keep their source order). -/
def isort (le : α → α → Bool) : List α → List α
  | [] => []
  | a :: as => insertLe le a (isort le as)

/-- Python string slicing `s[:n]` (slices by code point, as Python does). -/
def strTake (s : String) (n : Nat) : String := ⟨s.data.take n⟩

/-- Rendering of a `pandas.Timestamp` obtained from `to_datetime` on a
date-only column: `str(Timestamp("d"))` is `"d 00:00:00"`. -/
def tsStr (d : String) : String := d ++ " 00:00:00"

/-- Generic first-occurrence deduplication by a key function; models both
the Python `seen`-set loop of the medications section and
`pandas.DataFrame.drop_duplicates(..., keep="first")`. -/
def dedupFirstByAux (key : α → β) [BEq β] (seen : List β) : List α → List α
  | [] => []
  | x :: xs =>
    if seen.contains (key x) then dedupFirstByAux key seen xs
    else x :: dedupFirstByAux key (key x :: seen) xs

/-- See `dedupFirstByAux`. -/
def dedupFirstBy (key : α → β) [BEq β] (xs : List α) : List α :=
  dedupFirstByAux key [] xs

/-- The distinct keys of `keys`, sorted ascending; models the key order in
which `pandas.DataFrame.groupby(col)` (its default `sort=True`) yields the
groups. -/
def uniqueKeysAsc (keys : List String) : List String :=
  isort dateLe keys.eraseDups

/-- `pandas.DataFrame.groupby(col)` with default settings: groups are
listed with their keys ascending, each group holding the frame's rows with
that key in frame order. -/
def groupByAsc (key : α → String) (xs : List α) : List (String × List α) :=
  (uniqueKeysAsc (xs.map key)).map (fun k => (k, xs.filter (fun x => key x == k)))

/-- Index (in code points) of the first occurrence of `pat` in `l`,
if any. -/
def subIdx (pat : List Char) : List Char → Option Nat
  | [] => if pat.isEmpty then some 0 else none
  | c :: cs =>
    if pat.isPrefixOf (c :: cs) then some 0
    else (subIdx pat cs).map (· + 1)

/-- `a` and `b` both occur in `s` and the first occurrence of `a` starts
strictly before the first occurrence of `b`. -/
def occursBefore (a b s : String) : Bool :=
  match subIdx a.data s.data, subIdx b.data s.data with
  | some i, some j => decide (i < j)
  | _, _ => false

/-! ## Data layer: record shapes (per-category rows of the six tables) -/

/-- A row of `diagnoses.csv`. -/
structure DiagnosisRec where
  patient_id : Int
  diagnosis_description : Option String
deriving Repr, DecidableEq

/-- A row of `medications.csv`. -/
structure MedRec where
  patient_id : Int
  medication_name : Option String
  frequency : Option String
  classification : Option String
  reason : Option String
deriving Repr, DecidableEq

/-- A row of `vitals.csv` (`visit_date` is required by the formatter,
which calls `to_datetime` on the column). -/
structure VitalRec where
  patient_id : Int
  visit_date : String
  vital_type : Option String
  reading : Option String
deriving Repr, DecidableEq

/-- A row of `notes.csv`. -/
structure NoteRec where
  patient_id : Int
  note_date : String
  note_type : Option String
  note_text : Option String
deriving Repr, DecidableEq

/-- A row of `wounds.csv`. -/
structure WoundRec where
  patient_id : Int
  visit_date : String
  location : Option String
  description : Option String
  onset_date : Option String
deriving Repr, DecidableEq

/-- A row of `oasis.csv`. -/
structure OasisRec where
  patient_id : Int
  assessment_date : String
  assessment_type : Option String
  grooming : Option String
  bathing : Option String
  toilet_transfer : Option String
  transfer : Option String
  ambulation : Option String
deriving Repr, DecidableEq

/-- The six loaded tables (`load_all_data`); a table whose CSV failed to
load is the empty list. -/
structure Tables where
  diagnoses : List DiagnosisRec
  medications : List MedRec
  vitals : List VitalRec
  notes : List NoteRec
  wounds : List WoundRec
  oasis : List OasisRec
deriving Repr, DecidableEq

/-- The dictionary returned by `get_patient_data`. -/
structure PatientData where
  patient_id : Int
  diagnoses : List DiagnosisRec
  medications : List MedRec
  vitals : List VitalRec
  notes : List NoteRec
  wounds : List WoundRec
  oasis : List OasisRec
deriving Repr, DecidableEq

/-- `data_layer.get_patient_data`: filter each of the six tables to the
rows whose `patient_id` equals the requested id. -/
def get_patient_data (db : Tables) (pid : Int) : PatientData :=
  { patient_id := pid
    diagnoses := db.diagnoses.filter (fun r => r.patient_id == pid)
    medications := db.medications.filter (fun r => r.patient_id == pid)
    vitals := db.vitals.filter (fun r => r.patient_id == pid)
    notes := db.notes.filter (fun r => r.patient_id == pid)
    wounds := db.wounds.filter (fun r => r.patient_id == pid)
    oasis := db.oasis.filter (fun r => r.patient_id == pid) }

/-! ## Narrative formatter (`data_layer.format_for_llm`)

Each Python section of `format_for_llm` becomes one definition; the final
`format_for_llm` concatenates them exactly as the Python `output +=`
sequence does. -/

/-- Render a list of lines as the numbered list `enumerate(..., 1)`
produces. -/
def numberedLines (i : Nat) : List String → String
  | [] => ""
  | d :: ds => toString i ++ ". " ++ d ++ "\n" ++ numberedLines (i + 1) ds

/-- The distinct diagnosis descriptions (defaulted to "Unknown").  The
Python code collects them into a `set`, whose iteration order is an
unspecified (hash-dependent, per-process deterministic) permutation; this
model fixes first-occurrence order.  No claim depends on the order of this
section. -/
def uniqueDiagnoses (ds : List DiagnosisRec) : List String :=
  dedupFirstBy id (ds.map (fun d => d.diagnosis_description.getD "Unknown"))

/-- Section 1 of `format_for_llm` (body under the `## PRIMARY DIAGNOSES`
header). -/
def diagnoses_section (ds : List DiagnosisRec) : String :=
  if ds.isEmpty then "No diagnosis data available.\n"
  else numberedLines 1 (uniqueDiagnoses ds)

/-- `med.get('medication_name', 'Unknown')`, the deduplication key of the
medications section. -/
def medName (m : MedRec) : String := m.medication_name.getD "Unknown"

/-- The medications loop's `seen_meds` filter: keep only the first record
bearing each (defaulted) medication name, in source row order. -/
def dedupMeds (ms : List MedRec) : List MedRec := dedupFirstBy medName ms

/-- The two lines emitted per kept medication record. -/
def renderMed (m : MedRec) : String :=
  "- " ++ medName m ++ "\n  Frequency: " ++ m.frequency.getD "Unknown"
    ++ " | Class: " ++ m.classification.getD "Unknown"
    ++ " | Reason: " ++ m.reason.getD "Unknown" ++ "\n"

/-- Section 2 of `format_for_llm` (body under `## ACTIVE MEDICATIONS`). -/
def medications_section (ms : List MedRec) : String :=
  if ms.isEmpty then "No medication data available.\n"
  else String.join ((dedupMeds ms).map renderMed)

/-- `sort_values('visit_date', ascending=False)` comparison for vitals. -/
def vitalDateDesc (a b : VitalRec) : Bool := dateLe b.visit_date a.visit_date

/-- One `  - <type>: <reading>` line of the vitals section. -/
def renderVitalRow (r : VitalRec) : String :=
  "  - " ++ r.vital_type.getD "Unknown" ++ ": " ++ r.reading.getD "N/A" ++ "\n"

/-- One date group of the vitals section: header (the `strftime('%Y-%m-%d')`
of the group key, i.e. the ISO date itself) then the group's rows. -/
def renderVitalGroup (g : String × List VitalRec) : String :=
  "\n**" ++ g.1 ++ ":**\n" ++ String.join (g.2.map renderVitalRow)

/-- The vitals groups in emission order: the frame is sorted by
`visit_date` descending, but `groupby('visit_date')` then yields the
groups with keys ascending (pandas' default `sort=True`). -/
def vitalGroups (vs : List VitalRec) : List (String × List VitalRec) :=
  groupByAsc (fun r => r.visit_date) (isort vitalDateDesc vs)

/-- Section 3 of `format_for_llm` (body under `## VITAL SIGNS HISTORY`). -/
def vitals_section (vs : List VitalRec) : String :=
  if vs.isEmpty then "No vital signs data available.\n"
  else String.join ((vitalGroups vs).map renderVitalGroup)

/-- `sort_values('visit_date', ascending=False)` comparison for wounds. -/
def woundDateDesc (a b : WoundRec) : Bool := dateLe b.visit_date a.visit_date

/-- `drop_duplicates(subset=['location', 'description'], keep='first')`
applied to the descending-sorted wounds frame. -/
def latestWounds (ws : List WoundRec) : List WoundRec :=
  dedupFirstBy (fun w => (w.location, w.description)) (isort woundDateDesc ws)

/-- The two lines emitted per kept wound record. -/
def renderWound (w : WoundRec) : String :=
  "- " ++ w.description.getD "Unknown" ++ " at " ++ w.location.getD "Unknown"
    ++ "\n  Onset: " ++ w.onset_date.getD "Unknown"
    ++ " | Last Assessment: " ++ tsStr w.visit_date ++ "\n"

/-- Section 4 of `format_for_llm` (body under `## ACTIVE WOUNDS`). -/
def wounds_section (ws : List WoundRec) : String :=
  if ws.isEmpty then "No wound data available.\n"
  else String.join ((latestWounds ws).map renderWound)

/-- `sort_values('assessment_date', ascending=False)` comparison for OASIS
records. -/
def oasisDateDesc (a b : OasisRec) : Bool := dateLe b.assessment_date a.assessment_date

/-- The block emitted for the single most recent OASIS record. -/
def renderOasis (o : OasisRec) : String :=
  "**Assessment Date:** " ++ tsStr o.assessment_date
    ++ "\n**Type:** " ++ o.assessment_type.getD "Unknown" ++ "\n\n"
    ++ "- **Grooming:** " ++ o.grooming.getD "Unknown" ++ "\n"
    ++ "- **Bathing:** " ++ o.bathing.getD "Unknown" ++ "\n"
    ++ "- **Toilet Transfer:** " ++ o.toilet_transfer.getD "Unknown" ++ "\n"
    ++ "- **Transfer:** " ++ o.transfer.getD "Unknown" ++ "\n"
    ++ "- **Ambulation:** " ++ o.ambulation.getD "Unknown" ++ "\n"

/-- Section 5 of `format_for_llm` (body under
`## FUNCTIONAL STATUS (OASIS Assessment)`): `.iloc[0]` of the
descending-sorted frame.  `isort` returns `[]` exactly on empty input, so
matching on the sorted list mirrors the source's emptiness guard. -/
def oasis_section (os : List OasisRec) : String :=
  match isort oasisDateDesc os with
  | [] => "No OASIS data available.\n"
  | latest :: _ => renderOasis latest

/-- `sort_values('note_date', ascending=False)` comparison for notes. -/
def noteDateDesc (a b : NoteRec) : Bool := dateLe b.note_date a.note_date

/-- `recent_notes = notes_df.sort_values('note_date', ascending=False).head(3)`. -/
def recent_notes (ns : List NoteRec) : List NoteRec :=
  (isort noteDateDesc ns).take 3

/-- `note.get('note_text', 'No text')`. -/
def noteText (n : NoteRec) : String := n.note_text.getD "No text"

/-- The block emitted per recent note: header line, then
`note_text[:500]` followed by the `...` truncation marker. -/
def renderNote (n : NoteRec) : String :=
  "\n**" ++ tsStr n.note_date ++ " - " ++ n.note_type.getD "Unknown"
    ++ ":**\n" ++ strTake (noteText n) 500 ++ "...\n"

/-- Section 6 of `format_for_llm` (body under `## CLINICAL NOTES (Recent)`). -/
def notes_section (ns : List NoteRec) : String :=
  if ns.isEmpty then "No clinical notes available.\n"
  else String.join ((recent_notes ns).map renderNote)

/-- `data_layer.format_for_llm`: the whole narrative, assembled exactly as
the Python `output +=` sequence (section headers, bodies, and the blank
line after every section but the last). -/
def format_for_llm (p : PatientData) : String :=
  "# Patient Clinical Data - ID: " ++ toString p.patient_id ++ "\n\n"
    ++ "## PRIMARY DIAGNOSES\n" ++ diagnoses_section p.diagnoses ++ "\n"
    ++ "## ACTIVE MEDICATIONS\n" ++ medications_section p.medications ++ "\n"
    ++ "## VITAL SIGNS HISTORY\n" ++ vitals_section p.vitals ++ "\n"
    ++ "## ACTIVE WOUNDS\n" ++ wounds_section p.wounds ++ "\n"
    ++ "## FUNCTIONAL STATUS (OASIS Assessment)\n" ++ oasis_section p.oasis ++ "\n"
    ++ "## CLINICAL NOTES (Recent)\n" ++ notes_section p.notes

/-! ## LLM service (`llm_service.py`)

The two provider clients are modelled up to their external call: a
`CallResult` is the outcome of the network interaction (`netFail` for any
raised network/auth/availability error, `response raw` for a returned
body), and `json.loads` is the parameter `jloads`, returning `none` when
the text is not valid JSON and otherwise the parsed value. -/

/-- A Python/JSON value as `json.loads` produces it. -/
inductive JsonVal where
  | str (s : String)
  | num (n : Int)
  | bool (b : Bool)
  | null
  | arr (xs : List JsonVal)
  | obj (fields : List (String × JsonVal))
deriving Repr

/-- Outcome of the raw provider interaction (the part of `_call_gemini` /
`_call_openai` that talks to the external service). -/
inductive CallResult where
  | netFail (msg : String)
  | response (raw : String)
deriving Repr, DecidableEq

/-- Python `str.lower` on an ASCII character. -/
def lowerChar (c : Char) : Char :=
  if 65 ≤ c.toNat ∧ c.toNat ≤ 90 then Char.ofNat (c.toNat + 32) else c

/-- Python `str.lower` (configuration values are ASCII). -/
def lowerStr (s : String) : String := ⟨s.data.map lowerChar⟩

/-- `FORCE_PROVIDER = os.getenv("FORCE_PROVIDER", "").lower()`: the
effective forced-provider value derived from the raw environment string. -/
def force_provider (env : String) : String := lowerStr env

/-- Python `str.startswith`. -/
def strStarts (s p : String) : Bool := p.data.isPrefixOf s.data

/-- Fuel-driven core of Python `str.replace` (the fuel is the input
length, enough for any non-empty pattern, the only kind the source
uses). -/
def replList (pat rep : List Char) : Nat → List Char → List Char
  | 0, l => l
  | _ + 1, [] => []
  | fuel + 1, c :: cs =>
    if pat.isPrefixOf (c :: cs) then rep ++ replList pat rep fuel ((c :: cs).drop pat.length)
    else c :: replList pat rep fuel cs

/-- Python `str.replace`. -/
def strReplace (s pat rep : String) : String :=
  ⟨replList pat.data rep.data s.data.length s.data⟩

/-- Python `str.strip`. -/
def strTrim (s : String) : String :=
  ⟨((s.data.dropWhile Char.isWhitespace).reverse.dropWhile Char.isWhitespace).reverse⟩

/-- The markdown code-fence cleanup `_call_gemini` applies to the raw
response text before `json.loads`. -/
def cleanResponse (s : String) : String :=
  if strStarts s "```json" then strTrim (strReplace (strReplace s "```json" "") "```" "")
  else if strStarts s "```" then strTrim (strReplace s "```" "")
  else s

/-- Python dict key assignment `d[k] = v`: replace the value in place if
the key exists, else append (insertion order). -/
def setKey (fields : List (String × JsonVal)) (k : String) (v : JsonVal) :
    List (String × JsonVal) :=
  if fields.any (fun p => p.1 == k) then
    fields.map (fun p => if p.1 == k then (k, v) else p)
  else fields ++ [(k, v)]

/-- Python dict lookup `d.get(k)`. -/
def getKey (fields : List (String × JsonVal)) (k : String) : Option JsonVal :=
  (fields.find? (fun p => p.1 == k)).map (fun p => p.2)

/-- Field lookup on a JSON value (`none` off objects). -/
def jsonGet : JsonVal → String → Option JsonVal
  | .obj fields, k => getKey fields k
  | _, _ => none

/-- Whether a parsed JSON value is an object (a Python dict): only then
does the `summary_data['provider_used'] = ...` assignment succeed; on any
other parsed value that assignment raises `TypeError`, caught by the
clients' generic handler. -/
def isJsonObj : JsonVal → Bool
  | .obj _ => true
  | _ => false

/-- `llm_service._call_gemini`, from the network outcome on: wraps any
raised error as `Gemini API error: ...`, cleans code fences, parses JSON
(`jloads`), and on a parsed dict stamps `provider_used = "gemini"`.  A
parsed non-dict makes the `summary_data['provider_used']` assignment raise
(caught by the same generic handler); the JSON-decode error detail string
is abbreviated, its exact wording being the external library's. -/
def call_gemini (jloads : String → Option JsonVal) (net : CallResult) :
    Except String JsonVal :=
  match net with
  | .netFail m => .error ("Gemini API error: " ++ m)
  | .response raw =>
    let cleaned := cleanResponse raw
    match jloads cleaned with
    | none => .error ("Gemini returned invalid JSON: Expecting value\nResponse: "
        ++ strTake cleaned 200)
    | some (.obj fields) => .ok (.obj (setKey fields "provider_used" (.str "gemini")))
    | some _ => .error "Gemini API error: response is not a JSON object"

/-- `llm_service._call_openai`, from the network outcome on (no code-fence
cleanup on this path; otherwise the same shape as `call_gemini`). -/
def call_openai (jloads : String → Option JsonVal) (net : CallResult) :
    Except String JsonVal :=
  match net with
  | .netFail m => .error ("OpenAI API error: " ++ m)
  | .response raw =>
    match jloads raw with
    | none => .error "OpenAI returned invalid JSON: Expecting value"
    | some (.obj fields) => .ok (.obj (setKey fields "provider_used" (.str "openai")))
    | some _ => .error "OpenAI API error: response is not a JSON object"

/-- The module-level configuration surface of `llm_service` that
`generate_summary` reads: the fallback toggle and the raw
`FORCE_PROVIDER` environment value. -/
structure Config where
  use_fallback : Bool
  force_env : String
deriving Repr, DecidableEq

/-- The diagnostic message built when no provider produced a summary. -/
def bothFailedMsg (use_fallback : Bool) (gemini_error openai_error : String) : String :=
  "Both LLM providers failed:\n" ++ "  Gemini: " ++ gemini_error ++ "\n"
    ++ (if use_fallback then "  OpenAI: " ++ openai_error ++ "\n"
        else "  OpenAI: Fallback disabled\n")

/-- Step 1 of `generate_summary`'s algorithm: a forced provider is called
directly and its result returned tagged with its name; an exception it
raises propagates unchanged (the `return summary, name` lines of the two
`FORCE_PROVIDER` branches, which sit outside any `try`). -/
def forced (name : String) (res : Except String JsonVal) :
    Except String (JsonVal × String) × List String :=
  match res with
  | .ok s => (.ok (s, name), [name])
  | .error e => (.error e, [name])

/-- Steps 2-4 of `generate_summary`'s algorithm (the un-forced path): try
Gemini; on its failure, if `USE_FALLBACK`, try OpenAI; if that also fails
(or fallback is disabled) raise the combined diagnostic. -/
def orchestrate (use_fallback : Bool) (gres ores : Except String JsonVal) :
    Except String (JsonVal × String) × List String :=
  match gres with
  | .ok s => (.ok (s, "gemini"), ["gemini"])
  | .error ge =>
    if use_fallback then
      match ores with
      | .ok s => (.ok (s, "openai"), ["gemini", "openai"])
      | .error oe => (.error (bothFailedMsg true ge oe), ["gemini", "openai"])
    else (.error (bothFailedMsg false ge ""), ["gemini"])

/-- `llm_service.generate_summary`.  Besides the returned value
(`Except` of summary-and-provider-name versus raised message), the model
records the trace of provider invocations in order, so that claims about
which providers are called, and how often, are statable.
`orchestrate` is lazy in its provider arguments in the sense that a
provider's `CallResult`/`jloads` outcome is only inspected on the paths
that invoke that provider, and the recorded trace lists exactly the
providers the Python control flow calls. -/
def generate_summary (cfg : Config) (jloads : String → Option JsonVal)
    (gnet onet : CallResult) : Except String (JsonVal × String) × List String :=
  if force_provider cfg.force_env = "openai" then forced "openai" (call_openai jloads onet)
  else if force_provider cfg.force_env = "gemini" then forced "gemini" (call_gemini jloads gnet)
  else orchestrate cfg.use_fallback (call_gemini jloads gnet) (call_openai jloads onet)

/-- Validity of one section under the schema as the specification words
it: an object with `content` (string) and `citations` (array of strings).
Stated from the spec for comparison; the source performs no such check. -/
def schemaSectionValidSpec : JsonVal → Bool
  | .obj fields =>
    (match getKey fields "content" with | some (.str _) => true | _ => false)
      && (match getKey fields "citations" with
          | some (.arr cs) => cs.all (fun c => match c with | .str _ => true | _ => false)
          | _ => false)
  | _ => false

/-- The fixed summary schema as the specification words it: an object
with an overall `summary` string and a `sections` mapping whose every
value is a valid section.  Stated from the spec for comparison; the
source only checks JSON well-formedness, never this schema. -/
def schemaValidSpec : JsonVal → Bool
  | .obj fields =>
    (match getKey fields "summary" with | some (.str _) => true | _ => false)
      && (match getKey fields "sections" with
          | some (.obj secs) => secs.all (fun p => schemaSectionValidSpec p.2)
          | _ => false)
  | _ => false

/-! ## Helper lemmas -/

theorem insertLe_perm (le : α → α → Bool) (a : α) (l : List α) :
    (insertLe le a l).Perm (a :: l) := by
  induction l with
  | nil => simp [insertLe]
  | cons b bs ih =>
    rw [insertLe]
    by_cases h : le a b = true
    · simp [h]
    · simp only [h, if_false, Bool.false_eq_true]
      exact (ih.cons b).trans (List.Perm.swap a b bs)

theorem mem_insertLe {le : α → α → Bool} {a x : α} {l : List α} :
    x ∈ insertLe le a l ↔ x = a ∨ x ∈ l := by
  rw [(insertLe_perm le a l).mem_iff, List.mem_cons]

theorem isort_perm (le : α → α → Bool) (l : List α) : (isort le l).Perm l := by
  induction l with
  | nil => rfl
  | cons a as ih => exact (insertLe_perm le a (isort le as)).trans (ih.cons a)

theorem mem_isort {le : α → α → Bool} {x : α} {l : List α} :
    x ∈ isort le l ↔ x ∈ l := (isort_perm le l).mem_iff

theorem insertLe_pairwise (le : α → α → Bool)
    (htot : ∀ a b, le a b = false → le b a = true)
    (htrans : ∀ a b c, le a b = true → le b c = true → le a c = true)
    (a : α) (l : List α) (h : l.Pairwise (fun x y => le x y = true)) :
    (insertLe le a l).Pairwise (fun x y => le x y = true) := by
  induction l with
  | nil => simp [insertLe]
  | cons b bs ih =>
    rw [List.pairwise_cons] at h
    obtain ⟨hb, hbs⟩ := h
    rw [insertLe]
    by_cases hab : le a b = true
    · simp only [hab, if_true]
      refine List.Pairwise.cons ?_ (List.Pairwise.cons hb hbs)
      intro x hx
      rcases List.mem_cons.mp hx with rfl | hx'
      · exact hab
      · exact htrans a b x hab (hb x hx')
    · simp only [hab, if_false, Bool.false_eq_true]
      refine List.Pairwise.cons ?_ (ih hbs)
      intro x hx
      rcases mem_insertLe.mp hx with h | hx'
      · rw [h]
        exact htot a b (by simpa using hab)
      · exact hb x hx'

theorem isort_pairwise (le : α → α → Bool)
    (htot : ∀ a b, le a b = false → le b a = true)
    (htrans : ∀ a b c, le a b = true → le b c = true → le a c = true)
    (l : List α) : (isort le l).Pairwise (fun x y => le x y = true) := by
  induction l with
  | nil => simp [isort]
  | cons a as ih => exact insertLe_pairwise le htot htrans a (isort le as) ih

theorem lexLe_total : ∀ a b, lexLe a b = false → lexLe b a = true := by
  intro a
  induction a with
  | nil => intro b h; simp [lexLe] at h
  | cons x xs ih =>
    intro b h
    cases b with
    | nil => simp [lexLe]
    | cons y ys =>
      rw [lexLe] at h
      rw [lexLe]
      by_cases h1 : x.toNat < y.toNat
      · simp [h1] at h
      · by_cases h2 : y.toNat < x.toNat
        · simp [h2]
        · simp only [h1, h2, if_false] at h
          simp only [h1, h2, if_false]
          exact ih ys h

theorem lexLe_trans : ∀ a b c, lexLe a b = true → lexLe b c = true → lexLe a c = true := by
  intro a
  induction a with
  | nil => intro b c _ _; rfl
  | cons x xs ih =>
    intro b c h1 h2
    cases b with
    | nil => simp [lexLe] at h1
    | cons y ys =>
      cases c with
      | nil => simp [lexLe] at h2
      | cons z zs =>
        rw [lexLe] at h1 h2
        rw [lexLe]
        by_cases hxy : x.toNat < y.toNat
        · by_cases hyz : y.toNat < z.toNat
          · have hxz : x.toNat < z.toNat := Nat.lt_trans hxy hyz
            simp [hxz]
          · by_cases hzy : z.toNat < y.toNat
            · simp [hyz, hzy] at h2
            · have hxz : x.toNat < z.toNat := by omega
              simp [hxz]
        · by_cases hyx : y.toNat < x.toNat
          · simp [hxy, hyx] at h1
          · by_cases hyz : y.toNat < z.toNat
            · have hxz : x.toNat < z.toNat := by omega
              simp [hxz]
            · by_cases hzy : z.toNat < y.toNat
              · simp [hyz, hzy] at h2
              · have hxz : ¬ x.toNat < z.toNat := by omega
                have hzx : ¬ z.toNat < x.toNat := by omega
                simp only [hxy, hyx, if_false] at h1
                simp only [hyz, hzy, if_false] at h2
                simp only [hxz, hzx, if_false]
                exact ih ys zs h1 h2

theorem noteDateDesc_total (a b : NoteRec) :
    noteDateDesc a b = false → noteDateDesc b a = true := fun h =>
  lexLe_total b.note_date.data a.note_date.data h

theorem noteDateDesc_trans (a b c : NoteRec) :
    noteDateDesc a b = true → noteDateDesc b c = true → noteDateDesc a c = true :=
  fun h1 h2 => lexLe_trans c.note_date.data b.note_date.data a.note_date.data h2 h1

theorem dedupFirstByAux_filter_key (key : α → β) [BEq β] [LawfulBEq β] (k : β) :
    ∀ (xs : List α) (seen : List β),
    (dedupFirstByAux key seen xs).filter (fun x => key x == k)
      = if seen.contains k = true then [] else (xs.find? (fun x => key x == k)).toList := by
  intro xs
  induction xs with
  | nil =>
    intro seen
    cases h : seen.contains k <;> simp [dedupFirstByAux, h]
  | cons x xs ih =>
    intro seen
    rw [dedupFirstByAux]
    by_cases hx : seen.contains (key x) = true
    · rw [if_pos hx, ih]
      by_cases hk : seen.contains k = true
      · rw [if_pos hk, if_pos hk]
      · have hk' : seen.contains k = false := Bool.not_eq_true _ ▸ hk
        have hxk : (key x == k) = false := by
          rcases Bool.eq_false_or_eq_true (key x == k) with hxk' | hxk'
          · rw [← eq_of_beq hxk', hx] at hk'; exact absurd hk' (by simp)
          · exact hxk'
        have hfind : List.find? (fun y => key y == k) (x :: xs)
            = List.find? (fun y => key y == k) xs := by
          simp [List.find?, hxk]
        rw [if_neg hk, if_neg hk, hfind]
    · have hx' : seen.contains (key x) = false := Bool.not_eq_true _ ▸ hx
      rw [if_neg hx, List.filter_cons]
      by_cases hxk : (key x == k) = true
      · rw [if_pos hxk, ih]
        have hkx : k = key x := (eq_of_beq hxk).symm
        have hke : (k == key x) = true := by rw [hkx]; exact beq_self_eq_true _
        have hcont : (key x :: seen).contains k = true := by
          rw [List.contains_cons, hke, Bool.true_or]
        have hsk : seen.contains k = false := by rw [hkx]; exact hx'
        have hfind : List.find? (fun y => key y == k) (x :: xs) = some x := by
          simp [List.find?, hxk]
        rw [if_pos hcont, if_neg (Bool.eq_false_iff.mp hsk), hfind]
        rfl
      · have hxk' : (key x == k) = false := Bool.not_eq_true _ ▸ hxk
        rw [if_neg hxk, ih]
        have hke : (k == key x) = false := by
          rcases Bool.eq_false_or_eq_true (k == key x) with hkk | hkk
          · rw [eq_of_beq hkk, beq_self_eq_true] at hxk'
            exact absurd hxk' (by simp)
          · exact hkk
        have hcont : (key x :: seen).contains k = seen.contains k := by
          rw [List.contains_cons, hke, Bool.false_or]
        have hfind : List.find? (fun y => key y == k) (x :: xs)
            = List.find? (fun y => key y == k) xs := by
          simp [List.find?, hxk']
        rw [hcont, hfind]

theorem dedupFirstBy_filter_key (key : α → β) [BEq β] [LawfulBEq β]
    (xs : List α) (k : β) :
    (dedupFirstBy key xs).filter (fun x => key x == k)
      = (xs.find? (fun x => key x == k)).toList := by
  rw [dedupFirstBy, dedupFirstByAux_filter_key]
  simp

theorem find?_map_setHit (k : String) (v : JsonVal) :
    ∀ (fields : List (String × JsonVal)), fields.any (fun p => p.1 == k) = true →
    (fields.map (fun p => if p.1 == k then (k, v) else p)).find? (fun p => p.1 == k)
      = some (k, v) := by
  intro fields
  induction fields with
  | nil => intro h; simp at h
  | cons p fs ih =>
    intro h
    rw [List.map_cons]
    cases hp : p.1 == k with
    | true =>
      simp only [hp, if_true]
      exact List.find?_cons_of_pos _ (by simp)
    | false =>
      rw [List.any_cons, hp, Bool.false_or] at h
      simp only [hp, Bool.false_eq_true, if_false]
      rw [List.find?_cons_of_neg _ (by simp [hp]), ih h]

theorem find?_append_hit (k : String) (v : JsonVal) :
    ∀ (fields : List (String × JsonVal)), fields.any (fun p => p.1 == k) = false →
    (fields ++ [(k, v)]).find? (fun p => p.1 == k) = some (k, v) := by
  intro fields
  induction fields with
  | nil => simp
  | cons p fs ih =>
    intro h
    rw [List.any_cons] at h
    have hp : (p.1 == k) = false := by
      cases hp' : p.1 == k with
      | false => rfl
      | true => rw [hp', Bool.true_or] at h; exact absurd h (by simp)
    rw [hp, Bool.false_or] at h
    rw [List.cons_append, List.find?_cons_of_neg _ (by simp [hp]), ih h]

theorem getKey_setKey (fields : List (String × JsonVal)) (k : String) (v : JsonVal) :
    getKey (setKey fields k v) k = some v := by
  rw [setKey, getKey]
  by_cases h : fields.any (fun p => p.1 == k) = true
  · rw [if_pos h, find?_map_setHit k v fields h]
    rfl
  · rw [if_neg h, find?_append_hit k v fields (Bool.not_eq_true _ ▸ h)]
    rfl

theorem call_openai_ok_provider {jloads : String → Option JsonVal} {net : CallResult}
    {s : JsonVal} (h : call_openai jloads net = .ok s) :
    jsonGet s "provider_used" = some (.str "openai") := by
  cases net with
  | netFail m => simp [call_openai] at h
  | response raw =>
    rw [call_openai] at h
    cases hj : jloads raw with
    | none => rw [hj] at h; exact absurd h (by simp)
    | some v =>
      rw [hj] at h
      cases v with
      | obj fields =>
        have : JsonVal.obj (setKey fields "provider_used" (.str "openai")) = s := by
          simpa using h
        rw [← this, jsonGet, getKey_setKey]
      | str t => exact absurd h (by simp)
      | num n => exact absurd h (by simp)
      | bool b => exact absurd h (by simp)
      | null => exact absurd h (by simp)
      | arr xs => exact absurd h (by simp)

/-! ## Example inputs used by concrete theorems and witnesses -/

/-- A bundle with two vitals readings on distinct dates (and no other
data), matching the spec's ordering example. -/
def pdVitalsEx : PatientData :=
  { patient_id := 1001
    diagnoses := []
    medications := []
    vitals := [⟨1001, "2026-01-10", some "BP", some "120/80"⟩,
               ⟨1001, "2026-01-01", some "HR", some "70"⟩]
    notes := []
    wounds := []
    oasis := [] }

/-- A note whose text is exactly 500 characters long. -/
def noteEx500 : NoteRec :=
  ⟨1001, "2026-01-05", some "NARRATIVE", some ⟨List.replicate 500 'x'⟩⟩

/-- A note whose text is 501 characters long. -/
def noteExLong : NoteRec :=
  ⟨1001, "2026-01-06", some "NARRATIVE", some ⟨List.replicate 501 'x'⟩⟩

/-- A table set whose only record belongs to patient 7. -/
def dbEx : Tables :=
  { diagnoses := [⟨7, some "Hypertension"⟩]
    medications := []
    vitals := []
    notes := []
    wounds := []
    oasis := [] }

/-! ## The claims -/

set_option maxRecDepth 400000 in
/-- **C1** (the claim fails on the code, whose own descending sort marks
the intent): the spec says vitals date groups are emitted most recent
first, but on a bundle with vitals dated 2026-01-01 and 2026-01-10 the
formatted narrative contains the `**2026-01-01:**` group strictly before
the `**2026-01-10:**` group — `groupby('visit_date')` (default
`sort=True`) yields keys ascending, silently undoing the explicit
`sort_values(..., ascending=False)` on the line above it. -/
theorem vitals_groups_emitted_ascending :
    occursBefore "**2026-01-01:**" "**2026-01-10:**" (format_for_llm pdVitalsEx) = true
    ∧ occursBefore "**2026-01-10:**" "**2026-01-01:**" (format_for_llm pdVitalsEx) = false :=
  ⟨by decide, by decide⟩

/-- **C2**: the clinical-notes section sorts the notes by note date
descending (the sorted list is a permutation of the input, pairwise
descending by date), emits at most the 3 most recent (each omitted note's
date is at most each emitted note's date), and each emitted note text is
the Python slice `note_text[:500]` followed by the `...` marker: a text
longer than 500 characters appears truncated to exactly 500, a text of
at most 500 characters (in particular exactly 500) appears unmodified. -/
theorem notes_sorted_truncated (ns : List NoteRec) :
    (recent_notes ns).length ≤ 3
    ∧ recent_notes ns = (isort noteDateDesc ns).take 3
    ∧ (isort noteDateDesc ns).Perm ns
    ∧ (isort noteDateDesc ns).Pairwise (fun a b => noteDateDesc a b = true)
    ∧ (∀ k ∈ recent_notes ns, ∀ d ∈ (isort noteDateDesc ns).drop 3,
        dateLe d.note_date k.note_date = true)
    ∧ (ns.isEmpty = false →
        notes_section ns = String.join ((recent_notes ns).map renderNote))
    ∧ (∀ n : NoteRec, renderNote n
        = "\n**" ++ tsStr n.note_date ++ " - " ++ n.note_type.getD "Unknown"
            ++ ":**\n" ++ strTake (noteText n) 500 ++ "...\n")
    ∧ (∀ n : NoteRec, 500 < (noteText n).length →
        (strTake (noteText n) 500).length = 500)
    ∧ (∀ n : NoteRec, (noteText n).length ≤ 500 →
        strTake (noteText n) 500 = noteText n) := by
  refine ⟨?_, rfl, isort_perm _ ns,
    isort_pairwise noteDateDesc noteDateDesc_total noteDateDesc_trans ns,
    ?_, ?_, fun n => rfl, ?_, ?_⟩
  · exact le_trans (Nat.le_of_eq (congrArg List.length rfl)) (List.length_take_le 3 _)
  · intro k hk d hd
    have hp := isort_pairwise noteDateDesc noteDateDesc_total noteDateDesc_trans ns
    rw [← List.take_append_drop 3 (isort noteDateDesc ns), List.pairwise_append] at hp
    exact hp.2.2 k hk d hd
  · intro h
    rw [notes_section, h]
    rfl
  · intro n h
    have h2 : (strTake (noteText n) 500).length = ((noteText n).data.take 500).length := rfl
    rw [h2, List.length_take]
    have h3 : (noteText n).length = (noteText n).data.length := rfl
    rw [h3] at h
    omega
  · intro n h
    have h2 : (noteText n).data.length ≤ 500 := h
    rw [strTake, List.take_of_length_le h2]

set_option maxRecDepth 10000 in
/-- Witness for **C2** at concrete notes: a 500-character text is kept
whole, a 501-character text is cut to exactly 500 characters. -/
theorem notes_sorted_truncated_witness :
    strTake (noteText noteEx500) 500 = noteText noteEx500
    ∧ (strTake (noteText noteExLong) 500).length = 500 :=
  ⟨(notes_sorted_truncated []).2.2.2.2.2.2.2.2 noteEx500 (by decide),
   (notes_sorted_truncated []).2.2.2.2.2.2.2.1 noteExLong (by decide)⟩

/-- **C7**: the narrative formatter is a pure function of the record
bundle — the embedding reads no ambient state (no clock, no randomness),
so invoking it twice on equal bundles yields byte-identical strings. -/
theorem format_for_llm_deterministic (b₁ b₂ : PatientData) (h : b₁ = b₂) :
    format_for_llm b₁ = format_for_llm b₂ :=
  congrArg format_for_llm h

/-- Witness for **C7**: two invocations on the example bundle agree. -/
theorem format_for_llm_deterministic_witness :
    format_for_llm pdVitalsEx = format_for_llm pdVitalsEx :=
  format_for_llm_deterministic pdVitalsEx pdVitalsEx rfl

/-- **C8**: the medications section deduplicates by (defaulted)
medication name with first-seen-wins metadata: the kept records bearing a
given name are exactly the first source record with that name (hence one
entry, carrying that record's frequency/classification/reason), and the
section body renders exactly the kept records. -/
theorem medications_dedup_first_seen (ms : List MedRec) (nm : String) :
    (dedupMeds ms).filter (fun m => medName m == nm)
      = (ms.find? (fun m => medName m == nm)).toList
    ∧ medications_section ms
      = (if ms.isEmpty then "No medication data available.\n"
         else String.join ((dedupMeds ms).map renderMed)) :=
  ⟨dedupFirstBy_filter_key medName ms nm, rfl⟩

/-- **C9**: `get_patient_data` returns a bundle whose identifier is the
requested one, every record in each of the six sequences carries that
`patient_id` (post-filter invariant), and an identifier matching no row
anywhere yields the all-empty bundle (the function is total — no error
path exists). -/
theorem get_patient_data_post_filter (db : Tables) (pid : Int) :
    (get_patient_data db pid).patient_id = pid
    ∧ (∀ r ∈ (get_patient_data db pid).diagnoses, r.patient_id = pid)
    ∧ (∀ r ∈ (get_patient_data db pid).medications, r.patient_id = pid)
    ∧ (∀ r ∈ (get_patient_data db pid).vitals, r.patient_id = pid)
    ∧ (∀ r ∈ (get_patient_data db pid).notes, r.patient_id = pid)
    ∧ (∀ r ∈ (get_patient_data db pid).wounds, r.patient_id = pid)
    ∧ (∀ r ∈ (get_patient_data db pid).oasis, r.patient_id = pid)
    ∧ ((∀ r ∈ db.diagnoses, r.patient_id ≠ pid) →
       (∀ r ∈ db.medications, r.patient_id ≠ pid) →
       (∀ r ∈ db.vitals, r.patient_id ≠ pid) →
       (∀ r ∈ db.notes, r.patient_id ≠ pid) →
       (∀ r ∈ db.wounds, r.patient_id ≠ pid) →
       (∀ r ∈ db.oasis, r.patient_id ≠ pid) →
       get_patient_data db pid
         = { patient_id := pid, diagnoses := [], medications := [], vitals := [],
             notes := [], wounds := [], oasis := [] }) := by
  refine ⟨rfl, ?_, ?_, ?_, ?_, ?_, ?_, ?_⟩
  · intro r hr; have := (List.mem_filter.mp hr).2; simpa using this
  · intro r hr; have := (List.mem_filter.mp hr).2; simpa using this
  · intro r hr; have := (List.mem_filter.mp hr).2; simpa using this
  · intro r hr; have := (List.mem_filter.mp hr).2; simpa using this
  · intro r hr; have := (List.mem_filter.mp hr).2; simpa using this
  · intro r hr; have := (List.mem_filter.mp hr).2; simpa using this
  · intro h1 h2 h3 h4 h5 h6
    have e1 : db.diagnoses.filter (fun r => r.patient_id == pid) = [] :=
      List.filter_eq_nil_iff.mpr (fun r hr => by simp [h1 r hr])
    have e2 : db.medications.filter (fun r => r.patient_id == pid) = [] :=
      List.filter_eq_nil_iff.mpr (fun r hr => by simp [h2 r hr])
    have e3 : db.vitals.filter (fun r => r.patient_id == pid) = [] :=
      List.filter_eq_nil_iff.mpr (fun r hr => by simp [h3 r hr])
    have e4 : db.notes.filter (fun r => r.patient_id == pid) = [] :=
      List.filter_eq_nil_iff.mpr (fun r hr => by simp [h4 r hr])
    have e5 : db.wounds.filter (fun r => r.patient_id == pid) = [] :=
      List.filter_eq_nil_iff.mpr (fun r hr => by simp [h5 r hr])
    have e6 : db.oasis.filter (fun r => r.patient_id == pid) = [] :=
      List.filter_eq_nil_iff.mpr (fun r hr => by simp [h6 r hr])
    rw [get_patient_data, e1, e2, e3, e4, e5, e6]

/-- Witness for **C9**: patient 9 appears in no table of `dbEx`, and the
fetch returns the all-empty bundle for it. -/
theorem get_patient_data_post_filter_witness :
    get_patient_data dbEx 9
      = { patient_id := 9, diagnoses := [], medications := [], vitals := [],
          notes := [], wounds := [], oasis := [] } :=
  (get_patient_data_post_filter dbEx 9).2.2.2.2.2.2.2
    (by decide) (by decide) (by decide) (by decide) (by decide) (by decide)

/-! ## Reduction lemmas for the orchestrator -/

theorem generate_summary_normal (cfg : Config) (jloads : String → Option JsonVal)
    (gnet onet : CallResult)
    (hf1 : force_provider cfg.force_env ≠ "openai")
    (hf2 : force_provider cfg.force_env ≠ "gemini") :
    generate_summary cfg jloads gnet onet
      = orchestrate cfg.use_fallback (call_gemini jloads gnet) (call_openai jloads onet) := by
  rw [generate_summary, if_neg hf1, if_neg hf2]

theorem orchestrate_err_fb_ok (ge : String) (s : JsonVal)
    (ores : Except String JsonVal) (h : ores = .ok s) :
    orchestrate true (.error ge) ores = (.ok (s, "openai"), ["gemini", "openai"]) := by
  rw [h]; rfl

theorem orchestrate_err_fb_err (ge oe : String) (ores : Except String JsonVal)
    (h : ores = .error oe) :
    orchestrate true (.error ge) ores
      = (.error (bothFailedMsg true ge oe), ["gemini", "openai"]) := by
  rw [h]; rfl

theorem orchestrate_err_trace (fb : Bool) (ge : String) (ores : Except String JsonVal) :
    (orchestrate fb (.error ge) ores).2 = if fb then ["gemini", "openai"] else ["gemini"] := by
  cases fb <;> cases ores <;> rfl

theorem orchestrate_err_not_gemini (fb : Bool) (ge : String)
    (ores : Except String JsonVal) (v : JsonVal) :
    (orchestrate fb (.error ge) ores).1 ≠ .ok (v, "gemini") := by
  cases fb with
  | false => intro h; exact Except.noConfusion h
  | true =>
    cases ores with
    | ok s =>
      intro h
      rw [orchestrate_err_fb_ok ge s _ rfl] at h
      injection h with h1
      injection h1 with h2 h3
      exact absurd h3 (by decide)
    | error oe => intro h; exact Except.noConfusion h

theorem forced_trace (name : String) (res : Except String JsonVal) :
    (forced name res).2 = [name] := by
  cases res <;> rfl

/-! ## The orchestrator claims -/

/-- **C3**: on the un-forced path with fallback enabled, a failing primary
(Gemini) call makes `generate_summary` invoke the secondary (OpenAI)
provider exactly once, and if that call succeeds its summary is returned
tagged with the secondary's name (both in the returned pair and in the
summary's own `provider_used` field). -/
theorem fallback_invokes_secondary_once (cfg : Config)
    (jloads : String → Option JsonVal) (gnet onet : CallResult) (g : String)
    (hf1 : force_provider cfg.force_env ≠ "openai")
    (hf2 : force_provider cfg.force_env ≠ "gemini")
    (hfb : cfg.use_fallback = true)
    (hg : call_gemini jloads gnet = .error g) :
    (generate_summary cfg jloads gnet onet).2.count "openai" = 1
    ∧ (∀ s, call_openai jloads onet = .ok s →
        (generate_summary cfg jloads gnet onet).1 = .ok (s, "openai")
        ∧ jsonGet s "provider_used" = some (.str "openai")) := by
  rw [generate_summary_normal cfg jloads gnet onet hf1 hf2, hg, hfb]
  constructor
  · cases call_openai jloads onet with
    | ok s => rfl
    | error e => rfl
  · intro s hs
    rw [orchestrate_err_fb_ok g s _ hs]
    exact ⟨rfl, call_openai_ok_provider hs⟩

/-- Witness for **C3** at a concrete configuration: with the default
(no-override, fallback-on) configuration and a primary network failure,
the openai provider appears exactly once in the invocation trace. -/
theorem fallback_invokes_secondary_once_witness :
    (generate_summary ⟨true, ""⟩ (fun _ => none)
        (.netFail "timeout") (.netFail "x")).2.count "openai" = 1 :=
  (fallback_invokes_secondary_once ⟨true, ""⟩ (fun _ => none)
      (.netFail "timeout") (.netFail "x") "Gemini API error: timeout"
      (by decide) (by decide) rfl rfl).1

/-- **C4**: with a forced-provider override in effect, `generate_summary`
invokes exactly the forced provider — the alternate provider never
appears in the trace on any path — and a failure of the forced provider
propagates as the raised error itself, with no fallback attempted. -/
theorem forced_provider_exclusive (cfg : Config)
    (jloads : String → Option JsonVal) (gnet onet : CallResult) :
    (force_provider cfg.force_env = "openai" →
      (generate_summary cfg jloads gnet onet).2 = ["openai"]
      ∧ (∀ e, call_openai jloads onet = .error e →
          (generate_summary cfg jloads gnet onet).1 = .error e))
    ∧ (force_provider cfg.force_env = "gemini" →
      (generate_summary cfg jloads gnet onet).2 = ["gemini"]
      ∧ (∀ e, call_gemini jloads gnet = .error e →
          (generate_summary cfg jloads gnet onet).1 = .error e)) := by
  constructor
  · intro h
    rw [generate_summary, if_pos h]
    refine ⟨forced_trace _ _, ?_⟩
    intro e he
    rw [he]
    rfl
  · intro h
    have hne : force_provider cfg.force_env ≠ "openai" := by
      rw [h]; decide
    rw [generate_summary, if_neg hne, if_pos h]
    refine ⟨forced_trace _ _, ?_⟩
    intro e he
    rw [he]
    rfl

/-- Witness for **C4**: forcing openai with a failing openai call leaves
a trace of exactly one openai invocation and surfaces the openai error. -/
theorem forced_provider_exclusive_witness :
    (generate_summary ⟨true, "openai"⟩ (fun _ => none)
        (.netFail "g") (.netFail "o")).2 = ["openai"]
    ∧ (generate_summary ⟨true, "openai"⟩ (fun _ => none)
        (.netFail "g") (.netFail "o")).1 = .error "OpenAI API error: o" :=
  ⟨((forced_provider_exclusive ⟨true, "openai"⟩ (fun _ => none)
        (.netFail "g") (.netFail "o")).1 (by decide)).1,
   ((forced_provider_exclusive ⟨true, "openai"⟩ (fun _ => none)
        (.netFail "g") (.netFail "o")).1 (by decide)).2 "OpenAI API error: o" rfl⟩

/-- **C5**: on the un-forced path with fallback enabled, when both
providers fail `generate_summary` raises the combined diagnostic, whose
message contains both providers' individual failure reasons concatenated
into the one string. -/
theorem both_fail_reports_both_reasons (cfg : Config)
    (jloads : String → Option JsonVal) (gnet onet : CallResult) (g o : String)
    (hf1 : force_provider cfg.force_env ≠ "openai")
    (hf2 : force_provider cfg.force_env ≠ "gemini")
    (hfb : cfg.use_fallback = true)
    (hg : call_gemini jloads gnet = .error g)
    (ho : call_openai jloads onet = .error o) :
    (generate_summary cfg jloads gnet onet).1 = .error (bothFailedMsg true g o)
    ∧ (∃ s₁ s₂ s₃, bothFailedMsg true g o = s₁ ++ g ++ s₂ ++ o ++ s₃) := by
  constructor
  · rw [generate_summary_normal cfg jloads gnet onet hf1 hf2, hg, hfb,
      orchestrate_err_fb_err g o _ ho]
  · refine ⟨"Both LLM providers failed:\n" ++ "  Gemini: ", "\n" ++ "  OpenAI: ", "\n", ?_⟩
    rw [bothFailedMsg, if_pos rfl]
    simp only [String.append_assoc]

/-- Witness for **C5**: concrete double failure produces the combined
message embedding both reasons. -/
theorem both_fail_reports_both_reasons_witness :
    (generate_summary ⟨true, ""⟩ (fun _ => none)
        (.netFail "gx") (.netFail "ox")).1
      = .error (bothFailedMsg true "Gemini API error: gx" "OpenAI API error: ox") :=
  (both_fail_reports_both_reasons ⟨true, ""⟩ (fun _ => none)
      (.netFail "gx") (.netFail "ox") "Gemini API error: gx" "OpenAI API error: ox"
      (by decide) (by decide) rfl rfl rfl).1

/-- The default configuration: no forced provider, fallback enabled. -/
def cfgDefault : Config := ⟨true, ""⟩

/-- `json.loads` outcome on the request body `\x7b"note": "hi"\x7d`
(a well-formed JSON object that does not match the summary schema). -/
def jloadsOffSchema : String → Option JsonVal :=
  fun _ => some (.obj [("note", .str "hi")])

/-- Counterexample to **C6** as stated: a provider response that is valid
JSON but fails validation against the fixed summary schema (it has
neither `summary` nor `sections`) is **not** treated as a provider
failure — `generate_summary` returns it to the caller as a gemini
success, with no fallback: the source validates only JSON
well-formedness, never the schema. -/
theorem schema_invalid_response_returned :
    (generate_summary cfgDefault jloadsOffSchema
        (.response "\x7b\"note\": \"hi\"\x7d") (.netFail "o")).1
      = .ok (.obj [("note", .str "hi"), ("provider_used", .str "gemini")], "gemini")
    ∧ (generate_summary cfgDefault jloadsOffSchema
        (.response "\x7b\"note\": \"hi\"\x7d") (.netFail "o")).2 = ["gemini"]
    ∧ schemaValidSpec (.obj [("note", .str "hi"), ("provider_used", .str "gemini")])
        = false :=
  ⟨rfl, rfl, rfl⟩

/-- **C6** as amended: a provider response that fails **JSON parsing**, or
parses to a value that is not a JSON object (the `TypeError` raised by the
`provider_used` dict assignment), is treated identically to a provider
call failure — the gemini call reports an error, the provider-invocation
trace is the same as for a network failure, with fallback enabled a
succeeding openai call's result is returned instead, and the malformed
response is never returned to the caller as a gemini success.  Schema
conformance beyond JSON-object well-formedness is **not** checked: the
final conjunct shows every parsed JSON object — whether or not it
satisfies `schemaValidSpec` — is returned to the caller as a gemini
success (the counterexample instantiates this at a schema-invalid
object). -/
theorem invalid_json_triggers_fallback (cfg : Config)
    (jloads : String → Option JsonVal) (raw : String) (onet : CallResult) (m : String)
    (hf1 : force_provider cfg.force_env ≠ "openai")
    (hf2 : force_provider cfg.force_env ≠ "gemini")
    (hp : jloads (cleanResponse raw) = none
      ∨ ∃ v, jloads (cleanResponse raw) = some v ∧ isJsonObj v = false) :
    (∃ e, call_gemini jloads (.response raw) = .error e)
    ∧ (generate_summary cfg jloads (.response raw) onet).2
        = (generate_summary cfg jloads (.netFail m) onet).2
    ∧ (cfg.use_fallback = true → ∀ s, call_openai jloads onet = .ok s →
        (generate_summary cfg jloads (.response raw) onet).1 = .ok (s, "openai"))
    ∧ (∀ v, (generate_summary cfg jloads (.response raw) onet).1 ≠ .ok (v, "gemini"))
    ∧ (∀ (jl : String → Option JsonVal) (raw₂ : String)
          (fields : List (String × JsonVal)),
        jl (cleanResponse raw₂) = some (.obj fields) →
        (generate_summary cfg jl (.response raw₂) onet).1
          = .ok (.obj (setKey fields "provider_used" (.str "gemini")), "gemini")) := by
  have hge : ∃ e, call_gemini jloads (.response raw) = .error e := by
    rcases hp with hn | ⟨v, hv, hobj⟩
    · refine ⟨"Gemini returned invalid JSON: Expecting value\nResponse: "
        ++ strTake (cleanResponse raw) 200, ?_⟩
      rw [call_gemini]
      rw [hn]
    · cases v with
      | obj fields => rw [isJsonObj] at hobj; exact absurd hobj (by simp)
      | str s =>
        refine ⟨"Gemini API error: response is not a JSON object", ?_⟩
        rw [call_gemini]
        rw [hv]
      | num n =>
        refine ⟨"Gemini API error: response is not a JSON object", ?_⟩
        rw [call_gemini]
        rw [hv]
      | bool b =>
        refine ⟨"Gemini API error: response is not a JSON object", ?_⟩
        rw [call_gemini]
        rw [hv]
      | null =>
        refine ⟨"Gemini API error: response is not a JSON object", ?_⟩
        rw [call_gemini]
        rw [hv]
      | arr xs =>
        refine ⟨"Gemini API error: response is not a JSON object", ?_⟩
        rw [call_gemini]
        rw [hv]
  obtain ⟨e, hgee⟩ := hge
  refine ⟨⟨e, hgee⟩, ?_, ?_, ?_, ?_⟩
  · rw [generate_summary_normal cfg jloads (.response raw) onet hf1 hf2,
      generate_summary_normal cfg jloads (.netFail m) onet hf1 hf2, hgee]
    have hgm : call_gemini jloads (.netFail m) = .error ("Gemini API error: " ++ m) := rfl
    rw [hgm, orchestrate_err_trace, orchestrate_err_trace]
  · intro hfb s hs
    rw [generate_summary_normal cfg jloads (.response raw) onet hf1 hf2, hgee, hfb,
      orchestrate_err_fb_ok _ s _ hs]
  · intro v
    rw [generate_summary_normal cfg jloads (.response raw) onet hf1 hf2, hgee]
    exact orchestrate_err_not_gemini cfg.use_fallback _ _ v
  · intro jl raw₂ fields hobj
    have hok : call_gemini jl (.response raw₂)
        = .ok (.obj (setKey fields "provider_used" (.str "gemini"))) := by
      rw [call_gemini]
      rw [hobj]
    rw [generate_summary_normal cfg jl (.response raw₂) onet hf1 hf2, hok]
    rfl

/-- Witness for the amended **C6**, exercising both malformed branches
under the default configuration: a response that is not JSON at all, and
one parsing to a JSON array (not an object), each produce the same
invocation trace as a network failure. -/
theorem invalid_json_triggers_fallback_witness :
    ((generate_summary cfgDefault (fun _ => none)
          (.response "oops") (.netFail "x")).2
        = (generate_summary cfgDefault (fun _ => none)
            (.netFail "m") (.netFail "x")).2)
    ∧ ((generate_summary cfgDefault (fun _ => some (.arr []))
          (.response "[]") (.netFail "x")).2
        = (generate_summary cfgDefault (fun _ => some (.arr []))
            (.netFail "m") (.netFail "x")).2) :=
  ⟨(invalid_json_triggers_fallback cfgDefault (fun _ => none) "oops" (.netFail "x") "m"
      (by decide) (by decide) (Or.inl rfl)).2.1,
   (invalid_json_triggers_fallback cfgDefault (fun _ => some (.arr [])) "[]"
      (.netFail "x") "m"
      (by decide) (by decide) (Or.inr ⟨.arr [], rfl, rfl⟩)).2.1⟩

/-- **C10**: any `FORCE_PROVIDER` value whose lowercasing is neither
exactly "openai" nor exactly "gemini" — including the empty string and
unrecognized names — is ignored: `generate_summary` behaves exactly as
with no override configured (primary attempt first, normal fallback
rule), rather than rejecting the unknown value. -/
theorem unknown_force_value_ignored (cfg : Config)
    (jloads : String → Option JsonVal) (gnet onet : CallResult)
    (hf1 : force_provider cfg.force_env ≠ "openai")
    (hf2 : force_provider cfg.force_env ≠ "gemini") :
    generate_summary cfg jloads gnet onet
      = generate_summary ⟨cfg.use_fallback, ""⟩ jloads gnet onet
    ∧ (generate_summary cfg jloads gnet onet).2.head? = some "gemini" := by
  have he1 : force_provider ("" : String) ≠ "openai" := by decide
  have he2 : force_provider ("" : String) ≠ "gemini" := by decide
  constructor
  · rw [generate_summary_normal cfg jloads gnet onet hf1 hf2,
      generate_summary_normal ⟨cfg.use_fallback, ""⟩ jloads gnet onet he1 he2]
  · rw [generate_summary_normal cfg jloads gnet onet hf1 hf2]
    cases call_gemini jloads gnet with
    | ok s => rfl
    | error ge =>
      rw [orchestrate_err_trace]
      cases cfg.use_fallback <;> rfl

/-- Witness for **C10**: the unrecognized override value "Claude" behaves
exactly as the empty (no-override) configuration. -/
theorem unknown_force_value_ignored_witness :
    generate_summary ⟨true, "Claude"⟩ (fun _ => none) (.netFail "g") (.netFail "o")
      = generate_summary ⟨true, ""⟩ (fun _ => none) (.netFail "g") (.netFail "o") :=
  (unknown_force_value_ignored ⟨true, "Claude"⟩ (fun _ => none)
      (.netFail "g") (.netFail "o") (by decide) (by decide)).1

end ClinicalPipeline
